import Mathlib

/-!
Shallow embedding of the walmart_para report-snapshot fetcher.

The embedding covers the core modules `auth.py` (credential exchange,
token caching, request signing, authentication headers) and
`snapshot_client.py` (date validation, snapshot creation, status
polling, report download).  Network, clock and filesystem effects are
made explicit: each modelled operation takes the decoded outcome of its
external interactions as parameters and reports the requests, sleeps
and file-system effects it performs in its result.

Conventions:
* Calendar dates are modelled as day indices (`Int`); `datetime`
  subtraction `(end - start).days` becomes `Int` subtraction, and the
  injected `today` parameter stands for `datetime.now()` truncated to
  midnight, exactly as in `_validate_dates`.
* Python exceptions are modelled by the inductive `PyErr`.  Where the
  code raises one Python class with distinct messages (e.g.
  `RuntimeError` for both a missing field and a failed job), distinct
  constructors named after the specification's error taxonomy are used,
  one per distinct raise site kind.
* Python truthiness tests on strings (`if not snapshot_id`, `if not
  details_url`, `if _token_cache["access_token"]`) are modelled as
  emptiness tests, including the empty-string case.
-/

/-- Exceptions raised by the embedded code, one constructor per kind of
raise site, named after the specification's error taxonomy.
`typeError` models Python's `TypeError` (e.g. a call that omits
required positional arguments). -/
inductive PyErr where
  | typeError
  | validationError
  | configurationError
  | authError
  | apiError
  | keyError
  | protocolError
  | jobFailedError
  | jobExpiredError
  | pollTimeoutError
  | transferError
deriving DecidableEq, Repr

/-- Decidable equality for `Except`, needed to evaluate the embedded
operations' results inside `decide`. -/
instance {ε α : Type} [DecidableEq ε] [DecidableEq α] :
    DecidableEq (Except ε α) := fun
  | .ok a, .ok b =>
    if h : a = b then .isTrue (by rw [h])
    else .isFalse (by intro hc; cases hc; exact h rfl)
  | .ok _, .error _ => .isFalse (by intro h; cases h)
  | .error _, .ok _ => .isFalse (by intro h; cases h)
  | .error e, .error f =>
    if h : e = f then .isTrue (by rw [h])
    else .isFalse (by intro hc; cases hc; exact h rfl)

/-! ## Configuration constants (config.py) -/

def VALID_REPORT_TYPES : List String :=
  ["campaign", "lineItem", "tactic", "sku", "creative", "bid", "newBuyer"]

def MAX_DATE_RANGE : Int := 60

def SKU_MAX_RANGE : Int := 15

def POLL_INTERVAL : Nat := 30

def MAX_POLL_ATTEMPTS : Nat := 60

def BASE_URL : String :=
  "https://developer.api.us.walmart.com/api-proxy/service/display/api/v1/api/v1"

def DOWNLOAD_URL : String := "https://advertising.walmart.com/display/file"

/-! ## Date validation (snapshot_client.py, `_validate_dates`) -/

/-- Embedding of `_validate_dates(report_type, start_date, end_date)`.
Dates are day indices; `today` is `datetime.now()` at midnight.  The
checks appear in source order and every `raise ValueError` becomes
`.error .validationError`. -/
def validate_dates (report_type : String) (start_date end_date today : Int) :
    Except PyErr Unit :=
  if start_date > end_date then .error .validationError
  else if end_date ≥ today then .error .validationError
  else if start_date < today - 730 then .error .validationError
  else
    let delta_days := end_date - start_date
    let max_range : Int := if report_type = "sku" then SKU_MAX_RANGE else MAX_DATE_RANGE
    if delta_days > max_range then .error .validationError
    else .ok ()

/-! ## Snapshot creation (snapshot_client.py, `create_snapshot`) -/

/-- Decoded JSON body of a 2xx response from the job-creation endpoint;
`snapshotId` is `none` when the field is absent. -/
structure SnapJson where
  snapshotId : Option String
deriving DecidableEq, Repr

/-- A POST request to the job-creation endpoint together with the four
fields of its JSON payload. -/
structure PostReq where
  url : String
  advertiserId : String
  reportType : String
  startDate : Int
  endDate : Int
deriving DecidableEq, Repr

/-- Evaluation of the expression `get_auth_headers()` at snapshot_client.py
lines 71, 97 and 153: `auth.get_auth_headers(method, url)` declares two
required positional parameters, so the zero-argument call raises
`TypeError` before the callee's body runs. -/
def get_auth_headers_zero_arg_call : Except PyErr (List (String × String)) :=
  .error .typeError

/-- Embedding of `create_snapshot(advertiser_id, report_type, start_date,
end_date)`.  `resp` is the decoded outcome of the POST the source would
issue (`.error .apiError` for non-2xx).  The second component collects
the POST requests actually submitted. -/
def create_snapshot (advertiser_id report_type : String)
    (start_date end_date today : Int) (resp : Except PyErr SnapJson) :
    Except PyErr String × List PostReq :=
  if report_type ∉ VALID_REPORT_TYPES then (.error .validationError, [])
  else
    match validate_dates report_type start_date end_date today with
    | .error e => (.error e, [])
    | .ok _ =>
      match get_auth_headers_zero_arg_call with
      | .error e => (.error e, [])
      | .ok _ =>
        let req : PostReq :=
          ⟨BASE_URL ++ "/snapshot/report", advertiser_id, report_type,
            start_date, end_date⟩
        match resp with
        | .error e => (.error e, [req])
        | .ok data =>
          match data.snapshotId with
          | none => (.error .protocolError, [req])
          | some sid =>
            if sid = "" then (.error .protocolError, [req])
            else (.ok sid, [req])

/-! ## Token cache (auth.py, `_get_access_token`) -/

/-- The module-level `_token_cache` dictionary: `access_token` is `None`
initially, `expires_at` starts at `0` (seconds modelled as `Int`). -/
structure TokenCache where
  access_token : Option String
  expires_at : Int
deriving DecidableEq, Repr

/-- Decoded JSON body of a 2xx response from the token endpoint.
`access_token` is `none` when the field is absent (the subscript
`data["access_token"]` then raises `KeyError`); `expires_in` is `none`
when absent (`data.get("expires_in", 3600)` then defaults). -/
structure TokenJson where
  access_token : Option String
  expires_in : Option Int
deriving DecidableEq, Repr

/-- Result of one call to `_get_access_token`: the returned token or the
raised exception, the cache state after the call, and how many times
the token-exchange POST was issued during the call. -/
structure TokenResult where
  result : Except PyErr String
  cache : TokenCache
  exchangeCalls : Nat
deriving DecidableEq, Repr

/-- Python truthiness of `_token_cache["access_token"]`: `None` and the
empty string are falsy. -/
def token_truthy : Option String → Bool
  | none => false
  | some s => !(s == "")

/-- Embedding of `_get_access_token()`.  `cache` is the state of
`_token_cache` on entry, `now` the value of `time.time()`, `credsOk`
whether `_validate_credentials()` passes, and `exchange` the decoded
outcome of the POST to `TOKEN_URL` (`.error .authError` when
`raise_for_status` fires on a non-2xx response). -/
def get_access_token (cache : TokenCache) (now : Int) (credsOk : Bool)
    (exchange : Except PyErr TokenJson) : TokenResult :=
  if token_truthy cache.access_token && decide (now < cache.expires_at) then
    ⟨.ok (cache.access_token.getD ""), cache, 0⟩
  else if !credsOk then ⟨.error .configurationError, cache, 0⟩
  else
    match exchange with
    | .error e => ⟨.error e, cache, 1⟩
    | .ok data =>
      match data.access_token with
      | none => ⟨.error .keyError, cache, 1⟩
      | some tok =>
        let expires_in := data.expires_in.getD 3600
        ⟨.ok tok, ⟨some tok, now + expires_in - 60⟩, 1⟩

/-! ## Request signing (auth.py, `_generate_signature`) -/

/-- Result record of `urllib.parse.urlparse`, the stdlib collaborator
that splits a URL into components; only `path` is consumed by the
signing code. -/
structure ParsedUrl where
  scheme : String
  netloc : String
  path : String
  query : String
deriving DecidableEq, Repr

/-- Python `str.upper()`, written over the underlying character list so
that it evaluates by kernel reduction. -/
def py_upper (s : String) : String := ⟨s.data.map Char.toUpper⟩

/-- The canonical string built by `_generate_signature`:
`f"{WALMART_CLIENT_ID}\n{timestamp}\n{method.upper()}\n{request_path}\n"`. -/
def string_to_sign (client_id timestamp method request_path : String) : String :=
  client_id ++ "\n" ++ timestamp ++ "\n" ++ py_upper method ++ "\n" ++ request_path ++ "\n"

/-- Embedding of `_generate_signature(method, url, timestamp)`.  The
composite of `_load_private_key`, RSA PKCS#1 v1.5 / SHA-256 signing and
base64 encoding is the parameter `sign`: for a fixed key it is a
deterministic function of the signed bytes, which is what the
cryptography library guarantees for this padding scheme. -/
def generate_signature (sign : String → String) (client_id : String)
    (method : String) (url : ParsedUrl) (timestamp : String) : String :=
  sign (string_to_sign client_id timestamp method url.path)

/-! ## Authentication headers (auth.py, `get_auth_headers`) -/

/-- Header mapping returned by `get_auth_headers(method, url)` once its
subcalls produced `access_token`, `signature` and `timestamp`
(`str(int(time.time() * 1000))`). -/
def auth_headers (client_id key_version access_token signature : String)
    (timestampMs : Nat) : List (String × String) :=
  [("Authorization", "Bearer " ++ access_token),
   ("WM_CONSUMER.ID", client_id),
   ("WM_SEC.AUTH_SIGNATURE", signature),
   ("WM_CONSUMER.intimestamp", toString timestampMs),
   ("WM_SEC.KEY_VERSION", key_version),
   ("Content-Type", "application/json")]

/-! ## Static credential variant (spec §4.1) -/

/-- Modelled from the spec: the static credential variant of
CredentialProvider (spec §3 and §4.1) has no implementation under
`src/`; its fields are the pre-issued access token, the consumer
identifier, the pre-computed signature and the key-version tag. -/
structure StaticCredentials where
  token : String
  consumer_id : String
  signature : String
  key_version : String
deriving DecidableEq, Repr

/-- Modelled from the spec: `headers(method, url)` of the static
variant, absent from `src/`.  It validates that token, consumer id and
signature are all non-empty (failing with `ConfigurationError`
otherwise) and returns headers shaped like the signed variant's, with
`Authorization` and `WM_SEC.AUTH_SIGNATURE` the pre-configured static
values and `WM_CONSUMER.intimestamp` the current time in milliseconds,
recomputed per call. -/
def static_headers (c : StaticCredentials) (nowMs : Nat) :
    Except PyErr (List (String × String)) :=
  if c.token = "" ∨ c.consumer_id = "" ∨ c.signature = "" then
    .error .configurationError
  else
    .ok [("Authorization", c.token),
         ("WM_CONSUMER.ID", c.consumer_id),
         ("WM_SEC.AUTH_SIGNATURE", c.signature),
         ("WM_CONSUMER.intimestamp", toString nowMs),
         ("WM_SEC.KEY_VERSION", c.key_version),
         ("Content-Type", "application/json")]

/-! ## Status polling (snapshot_client.py, `poll_snapshot`) -/

/-- Decoded JSON body of a 2xx response from the job-status endpoint:
`jobStatus` is `none` when the field is absent (`data.get("jobStatus",
"unknown")` then defaults), `details` is `none` when absent. -/
structure PollResp where
  jobStatus : Option String
  details : Option String
deriving DecidableEq, Repr

/-- Outcome of the status checks one poll attempt performs on its
decoded response body, in source order. -/
inductive StepOut where
  | success (r : PollResp)
  | fail (e : PyErr)
  | nonTerminal (warn : Bool)
deriving DecidableEq, Repr

/-- Status interpretation of one poll attempt (the body of the `for`
loop in `poll_snapshot` after the GET): `done` requires a truthy
`details` URL, `failed` and `expired` raise immediately, and any other
status — including the `"unknown"` default — is non-terminal, with a
warning logged when it is neither `"pending"` nor `"processing"`. -/
def poll_step (r : PollResp) : StepOut :=
  let status := r.jobStatus.getD "unknown"
  if status = "done" then
    match r.details with
    | none => .fail .protocolError
    | some d => if d = "" then .fail .protocolError else .success r
  else if status = "failed" then .fail .jobFailedError
  else if status = "expired" then .fail .jobExpiredError
  else .nonTerminal (!(status = "pending" || status = "processing"))

/-- Result of a run of the poll loop: the returned job record or the
raised exception, the number of attempts whose authenticated GET was
actually issued, the number of `time.sleep(POLL_INTERVAL)` calls, and
the number of unexpected-status warnings logged. -/
structure PollOutcome where
  result : Except PyErr PollResp
  attempts : Nat
  sleeps : Nat
  warns : Nat
deriving DecidableEq, Repr

/-- Embedding of the `for attempt in range(1, MAX_POLL_ATTEMPTS + 1)`
loop of `poll_snapshot`.  Each iteration first evaluates
`get_auth_headers()` (snapshot_client.py line 97), whose zero-argument
call raises `TypeError` before the GET of that attempt; only on a
successful header build would the GET be issued, with `resps k` the
decoded body of the 2xx response of attempt `k` (0-based).  `rem` is
the number of loop iterations still available; the source's
`if attempt < MAX_POLL_ATTEMPTS: sleep` guard corresponds to `rem ≠ 0`
after the current iteration, and a fall-through of the loop raises
`TimeoutError`. -/
def poll_go (resps : Nat → PollResp) : Nat → Nat → PollOutcome
  | 0, _ => ⟨.error .pollTimeoutError, 0, 0, 0⟩
  | rem + 1, k =>
    match get_auth_headers_zero_arg_call with
    | .error e => ⟨.error e, 0, 0, 0⟩
    | .ok _ =>
      match poll_step (resps k) with
      | .success r => ⟨.ok r, 1, 0, 0⟩
      | .fail e => ⟨.error e, 1, 0, 0⟩
      | .nonTerminal w =>
        let wn : Nat := if w then 1 else 0
        if rem = 0 then ⟨.error .pollTimeoutError, 1, 0, wn⟩
        else
          let o := poll_go resps rem (k + 1)
          ⟨o.result, o.attempts + 1, o.sleeps + 1, o.warns + wn⟩

/-- Embedding of `poll_snapshot(advertiser_id, snapshot_id)` over the
response environment `resps`; the zero-argument header call makes the
first iteration raise `TypeError` before any GET or sleep. -/
def poll_snapshot (resps : Nat → PollResp) : PollOutcome :=
  poll_go resps MAX_POLL_ATTEMPTS 0

/-! ## Report download (snapshot_client.py, `download_report`) -/

/-- Python `str.rstrip("/")` on a string viewed as a character list. -/
def rstrip_slash (path : List Char) : List Char :=
  ((path.reverse).dropWhile (· = '/')).reverse

/-- Python `str.split("/")` on a string viewed as a character list:
never returns the empty list, and splitting the empty string yields one
empty segment. -/
def py_split_slash : List Char → List (List Char)
  | [] => [[]]
  | c :: rest =>
    match py_split_slash rest with
    | [] => [[]]
    | s :: ss => if c = '/' then [] :: s :: ss else (c :: s) :: ss

/-- Embedding of the file-id extraction in `download_report`:
`parsed.path.rstrip("/").split("/")` followed by `path_parts[-1] if
path_parts else ""` (the list is in fact never empty). -/
def extract_file_id (path : List Char) : List Char :=
  ((py_split_slash (rstrip_slash path)).getLast?).getD []

/-- Outcomes of the external effects the code after the header call in
`download_report` would perform: whether `raise_for_status` passes on
the GET, whether streaming the body into the `.gz` file completes, and
whether gzip decompression completes. -/
structure DlEnv where
  httpOk : Bool
  streamOk : Bool
  gunzipOk : Bool
deriving DecidableEq, Repr

/-- Result of one `download_report` call: the returned output path or
the raised exception, whether the intermediate `.gz` file was created,
and whether it still exists when the call exits. -/
structure DlOutcome where
  result : Except PyErr String
  gzCreated : Bool
  gzExists : Bool
deriving DecidableEq, Repr

/-- Embedding of `download_report(file_url, advertiser_id, output_path)`
over the effect environment `env`; `url_path` is `urlparse(file_url).path`.
After the file-id extraction and its `ValueError` check, the function
evaluates `get_auth_headers()` (snapshot_client.py line 153), whose
zero-argument call raises `TypeError` before the GET, so no `.gz` file
is ever created.  The arm below the header call mirrors the remaining
source: the `.gz` file would be created by `open(gz_path, "wb")` before
streaming, a streaming or decompression failure would propagate with
the file on disk, and `os.remove(gz_path)` runs only after
decompression succeeds. -/
def download_report (url_path : List Char) (output_path : String)
    (env : DlEnv) : DlOutcome :=
  let file_id := extract_file_id url_path
  if file_id = [] then ⟨.error .validationError, false, false⟩
  else
    match get_auth_headers_zero_arg_call with
    | .error e => ⟨.error e, false, false⟩
    | .ok _ =>
      if !env.httpOk then ⟨.error .apiError, false, false⟩
      else if !env.streamOk then ⟨.error .transferError, true, true⟩
      else if !env.gunzipOk then ⟨.error .transferError, true, true⟩
      else ⟨.ok output_path, true, false⟩

/-- Auxiliary list operation for reasoning about `py_split_slash`:
append a character to the last segment of a segment list. -/
def append_to_last (c : Char) : List (List Char) → List (List Char)
  | [] => [[c]]
  | [s] => [s ++ [c]]
  | s :: t :: ss => s :: append_to_last c (t :: ss)

/-- The last non-empty segment of a path under `"/"`-splitting, or `[]`
when the path has no non-empty segment; this is the reading of the file
identifier that the claim about `download_report` describes. -/
def last_nonempty_segment (path : List Char) : List Char :=
  ((((py_split_slash path).filter (· ≠ [])).getLast?).getD [])

/-! ## Theorems -/

/-- C1: for a request that passes local validation (valid report type,
valid 14-day range) and with a 2xx response carrying a `snapshotId`
available, `create_snapshot` issues no POST at all and raises
`TypeError`: the call `get_auth_headers()` omits the two required
positional arguments of `auth.get_auth_headers(method, url)`, so the
claimed submit-and-return-snapshotId behaviour never happens. -/
theorem create_snapshot_zero_arg_crash :
    "campaign" ∈ VALID_REPORT_TYPES ∧
    validate_dates "campaign" 1000 1014 1285 = .ok () ∧
    create_snapshot "600001" "campaign" 1000 1014 1285 (.ok ⟨some "snap-1"⟩) =
      (.error .typeError, []) := by decide

/-- C2: for every effect environment, a download of a well-formed
details URL raises `TypeError` at the zero-argument `get_auth_headers()`
call before the GET: nothing is ever streamed or decompressed, no
failure surfaces as `TransferError`, the successful-decompression exit
never occurs, and the sole cleanup site `os.remove(gz_path)` — which
the source reaches only after a successful decompression, with no
try/finally — is never executed.  The cleanup-on-every-exit-path
behaviour the claim describes does not exist in the program. -/
theorem download_report_zero_arg_crash (env : DlEnv) :
    download_report "/files/abc123".toList "report.csv" env =
      ⟨.error .typeError, false, false⟩ := rfl

/-- C6: with the remaining date constraints satisfied, a non-`"sku"`
report type accepts a range of exactly 60 days and rejects 61 days with
`ValidationError`, while `"sku"` accepts 15 days and rejects 16. -/
theorem date_range_limits (rt : String) (start today : Int)
    (hmem : rt ∈ VALID_REPORT_TYPES) (hsku : rt ≠ "sku")
    (hend : start + 61 < today) (hold : today - 730 ≤ start) :
    validate_dates rt start (start + 60) today = .ok () ∧
    validate_dates rt start (start + 61) today = .error .validationError ∧
    validate_dates "sku" start (start + 15) today = .ok () ∧
    validate_dates "sku" start (start + 16) today = .error .validationError := by
  refine ⟨?_, ?_, ?_, ?_⟩ <;>
    · simp only [validate_dates, MAX_DATE_RANGE, SKU_MAX_RANGE]
      split_ifs with h1 h2 h3 h4 <;>
        first
          | rfl
          | omega
          | simp_all

/-- Witness for `date_range_limits` at report type `"campaign"`,
`start = 0`, `today = 100`. -/
theorem date_range_limits_witness :
    ("campaign" ∈ VALID_REPORT_TYPES ∧ "campaign" ≠ "sku" ∧
      (0 : Int) + 61 < 100 ∧ (100 : Int) - 730 ≤ 0) ∧
    (validate_dates "campaign" 0 (0 + 60) 100 = .ok () ∧
      validate_dates "campaign" 0 (0 + 61) 100 = .error .validationError ∧
      validate_dates "sku" 0 (0 + 15) 100 = .ok () ∧
      validate_dates "sku" 0 (0 + 16) 100 = .error .validationError) :=
  ⟨⟨by decide, by decide, by decide, by decide⟩,
    date_range_limits "campaign" 0 100 (by decide) (by decide) (by decide) (by decide)⟩

/-- C7: the signature produced by `_generate_signature` depends only on
the tuple (client id, timestamp, uppercased method, URL path): for any
deterministic keyed signing primitive, two runs agree whenever the
uppercased methods and the paths agree, so the URL scheme, host and
query string have no influence. -/
theorem signature_depends_only_on_tuple (sign : String → String)
    (client_id timestamp m1 m2 : String) (u1 u2 : ParsedUrl)
    (hm : py_upper m1 = py_upper m2) (hp : u1.path = u2.path) :
    generate_signature sign client_id m1 u1 timestamp =
      generate_signature sign client_id m2 u2 timestamp := by
  unfold generate_signature string_to_sign
  rw [hm, hp]

/-- Witness for `signature_depends_only_on_tuple`: two URLs sharing the
path `/v1/x` but differing in scheme, host and query, and methods
`"get"` and `"GET"`, yield the same signature. -/
theorem signature_depends_only_on_tuple_witness :
    (py_upper "get" = py_upper "GET" ∧
      (ParsedUrl.mk "https" "api.example.com" "/v1/x" "a=1").path =
        (ParsedUrl.mk "http" "other.example.org" "/v1/x" "b=2").path) ∧
    generate_signature (fun s => s) "client-1" "get"
        ⟨"https", "api.example.com", "/v1/x", "a=1"⟩ "170000" =
      generate_signature (fun s => s) "client-1" "GET"
        ⟨"http", "other.example.org", "/v1/x", "b=2"⟩ "170000" :=
  ⟨⟨by decide, rfl⟩,
    signature_depends_only_on_tuple (fun s => s) "client-1" "170000" "get" "GET"
      ⟨"https", "api.example.com", "/v1/x", "a=1"⟩
      ⟨"http", "other.example.org", "/v1/x", "b=2"⟩ (by decide) rfl⟩

/-- C5: the static credential variant (modelled from the spec, which
has no implementation under src/) rejects exactly the configurations
with an empty token, consumer id or signature with
`ConfigurationError`, and otherwise returns headers whose names match
the signed variant's, with `Authorization` and `WM_SEC.AUTH_SIGNATURE`
the pre-configured static values and `WM_CONSUMER.intimestamp` the
per-call clock value. -/
theorem static_variant_headers (c : StaticCredentials) (nowMs : Nat)
    (client_id key_version access_token signature : String)
    (htok : c.token ≠ "") (hcid : c.consumer_id ≠ "") (hsig : c.signature ≠ "") :
    static_headers c nowMs =
      .ok [("Authorization", c.token),
           ("WM_CONSUMER.ID", c.consumer_id),
           ("WM_SEC.AUTH_SIGNATURE", c.signature),
           ("WM_CONSUMER.intimestamp", toString nowMs),
           ("WM_SEC.KEY_VERSION", c.key_version),
           ("Content-Type", "application/json")] ∧
    [("Authorization", c.token),
     ("WM_CONSUMER.ID", c.consumer_id),
     ("WM_SEC.AUTH_SIGNATURE", c.signature),
     ("WM_CONSUMER.intimestamp", toString nowMs),
     ("WM_SEC.KEY_VERSION", c.key_version),
     ("Content-Type", "application/json")].map Prod.fst =
      (auth_headers client_id key_version access_token signature nowMs).map Prod.fst ∧
    (∀ c' : StaticCredentials,
      static_headers c' nowMs = .error .configurationError ↔
        (c'.token = "" ∨ c'.consumer_id = "" ∨ c'.signature = "")) := by
  refine ⟨?_, by simp [auth_headers], fun c' => ?_⟩
  · simp [static_headers, htok, hcid, hsig]
  · constructor
    · intro h
      by_contra hne
      simp only [static_headers, if_neg hne] at h
      cases h
    · intro h
      simp [static_headers, h]

/-- Witness for `static_variant_headers` at a concrete static
credential set and clock value. -/
theorem static_variant_headers_witness :
    ((StaticCredentials.mk "tok-static" "cid-9" "sig-static" "2").token ≠ "" ∧
      (StaticCredentials.mk "tok-static" "cid-9" "sig-static" "2").consumer_id ≠ "" ∧
      (StaticCredentials.mk "tok-static" "cid-9" "sig-static" "2").signature ≠ "") ∧
    static_headers ⟨"tok-static", "cid-9", "sig-static", "2"⟩ 1700000 =
      .ok [("Authorization", "tok-static"),
           ("WM_CONSUMER.ID", "cid-9"),
           ("WM_SEC.AUTH_SIGNATURE", "sig-static"),
           ("WM_CONSUMER.intimestamp", toString 1700000),
           ("WM_SEC.KEY_VERSION", "2"),
           ("Content-Type", "application/json")] :=
  ⟨⟨by decide, by decide, by decide⟩,
    (static_variant_headers ⟨"tok-static", "cid-9", "sig-static", "2"⟩ 1700000
      "cid" "1" "t" "s" (by decide) (by decide) (by decide)).1⟩

/-- C4 counterexample: a successful token exchange whose body carries
`access_token = ""` stores `expires_at = 1000 + 3600 − 60 = 4540`, yet
the immediately following call at time `1000 < 4540` performs a second
exchange (`exchangeCalls = 1`, not `0`), because the cache-hit test
`if _token_cache["access_token"] and now < ...` treats the empty
cached token as falsy.  This refutes the claim that every call strictly
before `expires_at` reuses the cached token with no second exchange. -/
theorem token_cache_reuse_cex :
    (get_access_token ⟨none, 0⟩ 1000 true (.ok ⟨some "", none⟩)).result = .ok "" ∧
    (get_access_token ⟨none, 0⟩ 1000 true (.ok ⟨some "", none⟩)).cache =
      ⟨some "", 4540⟩ ∧
    (1000 : Int) < 4540 ∧
    (get_access_token ⟨some "", 4540⟩ 1000 true
        (.ok ⟨some "tok2", none⟩)).exchangeCalls = 1 := by decide

/-- C4 (amended): a successful exchange stores `expires_at = now +
expires_in − 60` with `expires_in` defaulting to `3600`; provided the
stored token is non-empty, every later call strictly before
`expires_at` returns it with no exchange, and a call at or after the
boundary performs exactly one refreshing exchange. -/
theorem token_cache_amended (c : TokenCache) (now now2 now3 : Int)
    (tok tok2 : String) (ein ein2 : Option Int)
    (ex2 : Except PyErr TokenJson) (credsOk : Bool)
    (hmiss : (token_truthy c.access_token && decide (now < c.expires_at)) = false)
    (htok : tok ≠ "")
    (hlt : now2 < now + ein.getD 3600 - 60)
    (hge : now3 ≥ now + ein.getD 3600 - 60) :
    get_access_token c now true (.ok ⟨some tok, ein⟩) =
      ⟨.ok tok, ⟨some tok, now + ein.getD 3600 - 60⟩, 1⟩ ∧
    get_access_token ⟨some tok, now + ein.getD 3600 - 60⟩ now2 credsOk ex2 =
      ⟨.ok tok, ⟨some tok, now + ein.getD 3600 - 60⟩, 0⟩ ∧
    get_access_token ⟨some tok, now + ein.getD 3600 - 60⟩ now3 true
        (.ok ⟨some tok2, ein2⟩) =
      ⟨.ok tok2, ⟨some tok2, now3 + ein2.getD 3600 - 60⟩, 1⟩ := by
  refine ⟨?_, ?_, ?_⟩
  · simp [get_access_token, hmiss]
  · simp [get_access_token, token_truthy, beq_iff_eq, htok, hlt]
  · have hnl : ¬ (now3 < now + ein.getD 3600 - 60) := by omega
    simp [get_access_token, decide_eq_false hnl]

/-- Witness for `token_cache_amended` on the initial cache, a fresh
token `"tokA"`, an absent `expires_in` on the first exchange and
`expires_in = 7200` on the refresh. -/
theorem token_cache_amended_witness :
    ((token_truthy (TokenCache.mk none 0).access_token &&
        decide ((1000 : Int) < (TokenCache.mk none 0).expires_at)) = false ∧
      "tokA" ≠ "" ∧
      (1001 : Int) < 1000 + (Option.getD none 3600) - 60 ∧
      (4540 : Int) ≥ 1000 + (Option.getD none 3600) - 60) ∧
    (get_access_token ⟨none, 0⟩ 1000 true (.ok ⟨some "tokA", none⟩) =
        ⟨.ok "tokA", ⟨some "tokA", 1000 + (Option.getD none 3600) - 60⟩, 1⟩ ∧
      get_access_token ⟨some "tokA", 1000 + (Option.getD none 3600) - 60⟩ 1001 true
          (.error .authError) =
        ⟨.ok "tokA", ⟨some "tokA", 1000 + (Option.getD none 3600) - 60⟩, 0⟩ ∧
      get_access_token ⟨some "tokA", 1000 + (Option.getD none 3600) - 60⟩ 4540 true
          (.ok ⟨some "tokB", some 7200⟩) =
        ⟨.ok "tokB", ⟨some "tokB", 4540 + (Option.getD (some 7200) 3600) - 60⟩, 1⟩) :=
  ⟨⟨by decide, by decide, by decide, by decide⟩,
    token_cache_amended ⟨none, 0⟩ 1000 1001 4540 "tokA" "tokB" none (some 7200)
      (.error .authError) true (by decide) (by decide) (by decide) (by decide)⟩

/-- C8: the token cache is mutated only by a fully successful exchange:
every call either leaves the cache exactly as it was, or returns the
newly exchanged token and installs it together with its computed expiry
in one step; in particular a non-2xx exchange or an unparsable body
leaves the cache untouched. -/
theorem failed_exchange_preserves_cache (c : TokenCache) (now : Int)
    (credsOk : Bool) (ex : Except PyErr TokenJson) :
    (get_access_token c now credsOk ex).cache = c ∨
    (∃ tok ein, ex = .ok ⟨some tok, ein⟩ ∧
      (get_access_token c now credsOk ex).result = .ok tok ∧
      (get_access_token c now credsOk ex).cache =
        ⟨some tok, now + ein.getD 3600 - 60⟩ ∧
      (get_access_token c now credsOk ex).exchangeCalls = 1) := by
  by_cases h1 : (token_truthy c.access_token && decide (now < c.expires_at)) = true
  · left; simp [get_access_token, h1]
  · rw [Bool.not_eq_true] at h1
    by_cases h2 : credsOk
    · rcases ex with e | ⟨ta, ti⟩
      · left; simp [get_access_token, h1, h2]
      · rcases ta with _ | tok
        · left; simp [get_access_token, h1, h2]
        · right
          exact ⟨tok, ti, rfl, by simp [get_access_token, h1, h2]⟩
    · left; simp [get_access_token, h1, h2]

/-- C3: every invocation of the poll loop raises `TypeError` during its
first iteration, at the zero-argument `get_auth_headers()` call that
precedes the GET of attempt 1: under the claimed pending, pending, done
scenario, under an immediately failed job, and under sixty consecutive
pending statuses alike, the loop issues no GET, performs no sleep, and
never reaches the `done`, `failed` or timeout exits the claim
describes. -/
theorem poll_snapshot_zero_arg_crash :
    poll_snapshot (fun k => if k < 2 then ⟨some "pending", none⟩
        else ⟨some "done", some "https://example.com/download/f1"⟩) =
      ⟨.error .typeError, 0, 0, 0⟩ ∧
    poll_snapshot (fun _ => ⟨some "failed", none⟩) =
      ⟨.error .typeError, 0, 0, 0⟩ ∧
    poll_snapshot (fun _ => ⟨some "pending", none⟩) =
      ⟨.error .typeError, 0, 0, 0⟩ := by decide

/-- C9: the status-interpretation logic of the loop body (lines
101–122, embedded as `poll_step`) does default a missing `jobStatus`
field to `"unknown"`, a non-terminal status that logs a warning rather
than raising a protocol error — but the loop raises `TypeError` at the
zero-argument `get_auth_headers()` call before any GET, so no poll
response is ever received and the continuation the claim describes is
unreachable: polling never proceeds to a next attempt. -/
theorem missing_jobStatus_unreachable :
    poll_step ⟨none, none⟩ = .nonTerminal true ∧
    poll_step ⟨none, some "https://example.com/download/f1"⟩ = .nonTerminal true ∧
    poll_snapshot (fun _ => ⟨none, none⟩) = ⟨.error .typeError, 0, 0, 0⟩ := by
  decide

/-- Helper: Python `split` never yields an empty list of segments. -/
theorem py_split_slash_ne_nil : ∀ l : List Char, py_split_slash l ≠ [] := by
  intro l
  induction l with
  | nil => simp [py_split_slash]
  | cons c rest ih =>
    simp only [py_split_slash]
    rcases h : py_split_slash rest with _ | ⟨s, ss⟩
    · exact absurd h ih
    · by_cases hc : c = '/' <;> simp [hc]

/-- Helper: `append_to_last` never yields an empty list of segments. -/
theorem append_to_last_ne_nil (c : Char) :
    ∀ L : List (List Char), append_to_last c L ≠ [] := by
  intro L
  match L with
  | [] => simp [append_to_last]
  | [s] => simp [append_to_last]
  | s :: t :: ss => simp [append_to_last]

/-- Helper: the last segment after `append_to_last` is the old last
segment (or `[]` when there was none) with the character appended. -/
theorem getLast?_append_to_last (c : Char) :
    ∀ L : List (List Char),
      (append_to_last c L).getLast? = some ((L.getLast?).getD [] ++ [c]) := by
  intro L
  induction L with
  | nil => simp [append_to_last]
  | cons s ss ih =>
    cases ss with
    | nil => simp [append_to_last]
    | cons t ts =>
      have hne := append_to_last_ne_nil c (t :: ts)
      rcases h : append_to_last c (t :: ts) with _ | ⟨x, xs⟩
      · exact absurd h hne
      · calc (append_to_last c (s :: t :: ts)).getLast?
            = (s :: x :: xs).getLast? := by rw [show append_to_last c (s :: t :: ts) = s :: append_to_last c (t :: ts) from rfl, h]
          _ = (x :: xs).getLast? := List.getLast?_cons_cons
          _ = (append_to_last c (t :: ts)).getLast? := by rw [h]
          _ = some (((t :: ts).getLast?).getD [] ++ [c]) := ih
          _ = some (((s :: t :: ts).getLast?).getD [] ++ [c]) := by
                rw [List.getLast?_cons_cons]

/-- Helper: appending a non-separator character extends the last
segment of the split. -/
theorem split_append_nonsep (c : Char) (hc : ¬ c = '/') :
    ∀ q : List Char,
      py_split_slash (q ++ [c]) = append_to_last c (py_split_slash q) := by
  intro q
  induction q with
  | nil => simp [py_split_slash, append_to_last, hc]
  | cons a q' ih =>
    rcases h : py_split_slash q' with _ | ⟨t, ts⟩
    · exact absurd h (py_split_slash_ne_nil q')
    · cases ts with
      | nil =>
        simp only [List.cons_append, py_split_slash, List.append_eq]
        rw [ih, h]
        by_cases ha : a = '/' <;> simp [ha, append_to_last]
      | cons u us =>
        simp only [List.cons_append, py_split_slash, List.append_eq]
        rw [ih, h]
        by_cases ha : a = '/' <;> simp [ha, append_to_last]

/-- Helper: appending a separator closes the last segment and adds a
fresh empty one. -/
theorem split_append_sep :
    ∀ q : List Char, py_split_slash (q ++ ['/']) = py_split_slash q ++ [[]] := by
  intro q
  induction q with
  | nil => simp [py_split_slash]
  | cons a q' ih =>
    rcases h : py_split_slash q' with _ | ⟨t, ts⟩
    · exact absurd h (py_split_slash_ne_nil q')
    · simp only [List.cons_append, py_split_slash, List.append_eq]
      rw [ih, h]
      by_cases ha : a = '/' <;> simp [ha]

/-- Helper: `rstrip` absorbs one trailing separator. -/
theorem rstrip_append_sep (p : List Char) :
    rstrip_slash (p ++ ['/']) = rstrip_slash p := by
  unfold rstrip_slash
  rw [List.reverse_concat' p '/']
  rw [List.dropWhile_cons_of_pos]
  decide

/-- Helper: `rstrip` is the identity on a list ending in a
non-separator character. -/
theorem rstrip_append_nonsep (p : List Char) (c : Char) (hc : c ≠ '/') :
    rstrip_slash (p ++ [c]) = p ++ [c] := by
  unfold rstrip_slash
  rw [List.reverse_concat' p c]
  rw [List.dropWhile_cons_of_neg (by simpa using hc)]
  rw [List.reverse_cons, List.reverse_reverse]

/-- Helper: the result of `dropWhile` is empty or starts with an
element failing the predicate. -/
theorem dropWhile_nil_or_head_neg {α : Type} (pr : α → Bool) :
    ∀ l : List α, l.dropWhile pr = [] ∨
      ∃ h t, l.dropWhile pr = h :: t ∧ pr h = false := by
  intro l
  induction l with
  | nil => left; rfl
  | cons a as ih =>
    by_cases ha : pr a = true
    · rw [List.dropWhile_cons_of_pos ha]
      exact ih
    · right
      exact ⟨a, as, List.dropWhile_cons_of_neg ha, by simpa using ha⟩

/-- Helper: filtering preserves the last element when that element
satisfies the filter predicate. -/
theorem getLast?_filter_of_getLast? {α : Type} (pr : α → Bool) :
    ∀ (l : List α) (x : α), l.getLast? = some x → pr x = true →
      (l.filter pr).getLast? = some x := by
  intro l
  induction l with
  | nil => intro x hx; cases hx
  | cons a as ih =>
    intro x hx hpx
    cases as with
    | nil =>
      simp only [List.getLast?_singleton, Option.some.injEq] at hx
      subst hx
      simp [List.filter, hpx]
    | cons b bs =>
      rw [List.getLast?_cons_cons] at hx
      have hrec := ih x hx hpx
      by_cases ha : pr a = true
      · rw [show (a :: b :: bs).filter pr = a :: (b :: bs).filter pr from by
          simp [List.filter, ha]]
        rcases hf : (b :: bs).filter pr with _ | ⟨y, ys⟩
        · rw [hf] at hrec; simp at hrec
        · rw [hf] at hrec
          rw [List.getLast?_cons_cons]
          exact hrec
      · rw [show (a :: b :: bs).filter pr = (b :: bs).filter pr from by
          simp [List.filter, ha]]
        exact hrec

/-- Helper: every split segment is empty exactly when every character
of the path is the separator. -/
theorem split_all_empty_iff :
    ∀ p : List Char,
      (∀ seg ∈ py_split_slash p, seg = []) ↔ (∀ c ∈ p, c = '/') := by
  intro p
  induction p with
  | nil => simp [py_split_slash]
  | cons a p' ih =>
    rcases h : py_split_slash p' with _ | ⟨t, ts⟩
    · exact absurd h (py_split_slash_ne_nil p')
    · rw [h] at ih
      simp only [py_split_slash, h]
      by_cases ha : a = '/'
      · subst ha
        simp only [if_pos rfl]
        constructor
        · intro hall
          intro c hc
          rcases List.mem_cons.mp hc with hc | hc
          · exact hc
          · exact ih.mp (fun seg hseg => hall seg (List.mem_cons_of_mem [] hseg)) c hc
        · intro hall
          intro seg hseg
          rcases List.mem_cons.mp hseg with hseg | hseg
          · exact hseg
          · exact ih.mpr (fun c hc => hall c (List.mem_cons_of_mem _ hc)) seg hseg
      · simp only [if_neg ha]
        constructor
        · intro hall
          have := hall (a :: t) (List.mem_cons_self _ _)
          cases this
        · intro hall
          exact absurd (hall a (List.mem_cons_self a p')) ha

/-- Helper: the extracted file identifier is exactly the last non-empty
path segment (or `[]` when there is none). -/
theorem extract_eq_last_nonempty :
    ∀ p : List Char, extract_file_id p = last_nonempty_segment p := by
  intro p
  induction p using List.reverseRecOn with
  | nil => rfl
  | append_singleton q c ih =>
    by_cases hc : c = '/'
    · subst hc
      have h1 : extract_file_id (q ++ ['/']) = extract_file_id q := by
        unfold extract_file_id
        rw [rstrip_append_sep]
      have h2 : last_nonempty_segment (q ++ ['/']) = last_nonempty_segment q := by
        unfold last_nonempty_segment
        rw [split_append_sep, List.filter_append]
        simp [List.filter]
      rw [h1, h2, ih]
    · have hsplit := split_append_nonsep c hc q
      have h1 : extract_file_id (q ++ [c]) =
          ((py_split_slash q).getLast?).getD [] ++ [c] := by
        unfold extract_file_id
        rw [rstrip_append_nonsep q c hc, hsplit, getLast?_append_to_last]
        rfl
      have h2 : last_nonempty_segment (q ++ [c]) =
          ((py_split_slash q).getLast?).getD [] ++ [c] := by
        unfold last_nonempty_segment
        rw [hsplit]
        have hlast := getLast?_append_to_last c (py_split_slash q)
        have hfil := getLast?_filter_of_getLast? (fun s => decide (s ≠ []))
          (append_to_last c (py_split_slash q))
          (((py_split_slash q).getLast?).getD [] ++ [c]) hlast (by simp)
        rw [hfil]
        rfl
      rw [h1, h2]

/-- Helper: the extracted file identifier is empty exactly when the
path consists only of separator characters. -/
theorem extract_empty_iff (p : List Char) :
    extract_file_id p = [] ↔ ∀ c ∈ p, c = '/' := by
  constructor
  · intro h
    by_contra hall
    push_neg at hall
    obtain ⟨c, hc, hcne⟩ := hall
    rcases dropWhile_nil_or_head_neg (· = '/') p.reverse with
      hnil | ⟨h0, t0, hdt, hh⟩
    · have hforall := List.dropWhile_eq_nil_iff.mp hnil
      have hc' : c ∈ p.reverse := List.mem_reverse.mpr hc
      exact hcne (by simpa using hforall c hc')
    · have hh' : ¬ h0 = '/' := by simpa using hh
      have hrs : rstrip_slash p = t0.reverse ++ [h0] := by
        unfold rstrip_slash
        rw [hdt, List.reverse_cons]
      have hval : extract_file_id p =
          ((py_split_slash t0.reverse).getLast?).getD [] ++ [h0] := by
        unfold extract_file_id
        rw [hrs, split_append_nonsep h0 hh', getLast?_append_to_last]
        rfl
      rw [hval] at h
      simp at h
  · intro hall
    have hrev : p.reverse.dropWhile (· = '/') = [] :=
      List.dropWhile_eq_nil_iff.mpr
        (fun x hx => by simpa using hall x (List.mem_reverse.mp hx))
    have hrs : rstrip_slash p = [] := by
      unfold rstrip_slash
      rw [hrev]
      rfl
    unfold extract_file_id
    rw [hrs]
    rfl

/-- C10: `download_report` extracts the file identifier as the last
non-empty path segment of the details URL (trailing slashes on the path
are stripped first, so a path ending in slashes still yields the
preceding segment), and it fails with `ValidationError` exactly when
the URL path contains no non-empty segment: the extraction and its
`ValueError` check precede the zero-argument header call, and a
non-empty identifier leads to that call's `TypeError`, never to
`ValidationError`. -/
theorem download_file_id_extraction (path : List Char) (out : String)
    (env : DlEnv) :
    extract_file_id path = last_nonempty_segment path ∧
    (extract_file_id path = [] ↔ ∀ seg ∈ py_split_slash path, seg = []) ∧
    ((download_report path out env).result = .error .validationError ↔
      ∀ seg ∈ py_split_slash path, seg = []) := by
  have hiff : extract_file_id path = [] ↔ ∀ seg ∈ py_split_slash path, seg = [] :=
    (extract_empty_iff path).trans (split_all_empty_iff path).symm
  refine ⟨extract_eq_last_nonempty path, hiff, ?_, ?_⟩
  · intro h
    by_cases hid : extract_file_id path = []
    · exact hiff.mp hid
    · exfalso
      unfold download_report at h
      rw [if_neg hid] at h
      simp [get_auth_headers_zero_arg_call] at h
  · intro hall
    have hid : extract_file_id path = [] := hiff.mpr hall
    unfold download_report
    rw [if_pos hid]
